import Mathlib

/-!
Verification of the credit-risk prediction app (src/app.py).

The file shallowly embeds the encode-and-infer core of the application:
the encoder bank built by load_assets (lines 42-51), the feature assembly
that builds the single-row table input_df (lines 130-139), the scorer
interpretation (lines 141-158) and the probability display (lines 144-165).
Machine floats in the probability path are modelled as rationals.
-/

namespace CreditRisk

/-- A fitted label encoder: its list of fitted classes.  The transform
operation returns the index of a label among the fitted classes, and fails
(UnknownCategory) when the label was not fitted. -/
structure LabelEncoder where
  classes : List String
deriving Repr, DecidableEq

/-- Encoder lookup: the integer code of a label, none when the label is
outside the fitted vocabulary (sklearn raises ValueError there). -/
def LabelEncoder.transform (e : LabelEncoder) (l : String) : Option Nat :=
  e.classes.findIdx? (· == l)

/-- Request-scoped failures of the core: an unknown categorical value, or a
missing key in the encoder dictionary. -/
inductive AppError where
  | UnknownCategory (field label : String)
  | KeyError (key : String)
deriving Repr, DecidableEq

/-- The single-row table assembled for the scorer: named columns in order,
each holding one integer cell. -/
abbrev Row := List (String × Int)

/-- Value of a named column of the row (pandas column access). -/
def Row.cell (w : Row) (k : String) : Option Int :=
  (w.find? (fun p => p.1 == k)).map Prod.snd

/-- The four categorical column names of the dictionary comprehension in
load_assets (src/app.py line 47). -/
def categoricalColumns : List String :=
  ["Sex", "Housing", "Saving accounts", "Checking account"]

/-- The encoder dictionary built by load_assets: one deserialized encoder
per categorical column name, keyed by that name (src/app.py lines 45-48).
The joblib deserialization of each pickled file is abstracted as a function
from the column name to the fitted encoder. -/
def load_encoders (loadEnc : String → LabelEncoder) : List (String × LabelEncoder) :=
  categoricalColumns.map (fun col => (col, loadEnc col))

/-- Python dictionary access encoders[k]: the value at the key, or a
KeyError. -/
def dictGet (d : List (String × LabelEncoder)) (k : String) :
    Except AppError LabelEncoder :=
  match d.find? (fun p => p.1 == k) with
  | some p => .ok p.2
  | none => .error (.KeyError k)

/-- One submitted set of form values (src/app.py lines 86-96): the widgets
structurally bound the numeric fields and the select boxes offer fixed
string options, but the record type itself carries the raw values. -/
structure ApplicantRecord where
  age : Int
  sex : String
  job : Int
  housing : String
  savingAccounts : String
  checkingAccount : String
  creditAmount : Int
  duration : Int
deriving Repr, DecidableEq

/-- encoders[field].transform([label])[0] as it appears inside the
dictionary literal of input_df: dictionary lookup, then encoder transform;
an unfitted label is an UnknownCategory failure. -/
def encodeField (d : List (String × LabelEncoder)) (field label : String) :
    Except AppError Nat :=
  match dictGet d field with
  | .error e => .error e
  | .ok enc =>
    match enc.transform label with
    | some c => .ok c
    | none => .error (.UnknownCategory field label)

/-- Feature assembly (src/app.py lines 130-139): the single-row table with
the eight named columns in the order of the dictionary literal, categorical
fields replaced by their codes, numeric fields passed through.  Any failed
encoding aborts the whole construction with that failure. -/
def input_df (encoders : List (String × LabelEncoder)) (r : ApplicantRecord) :
    Except AppError Row :=
  match encodeField encoders "Sex" r.sex with
  | .error e => .error e
  | .ok sexCode =>
  match encodeField encoders "Housing" r.housing with
  | .error e => .error e
  | .ok housingCode =>
  match encodeField encoders "Saving accounts" r.savingAccounts with
  | .error e => .error e
  | .ok savingCode =>
  match encodeField encoders "Checking account" r.checkingAccount with
  | .error e => .error e
  | .ok checkingCode =>
  .ok [("Age", r.age),
       ("Sex", (sexCode : Int)),
       ("Job", r.job),
       ("Housing", (housingCode : Int)),
       ("Saving accounts", (savingCode : Int)),
       ("Checking account", (checkingCode : Int)),
       ("Credit amount", r.creditAmount),
       ("Duration", r.duration)]

/-- The external scorer: predict on the single assembled row yields a class
label; classes is the classes_ attribute; predictProba is present exactly
when the object has the predict_proba attribute, and then yields the
per-class probability vector for the row. -/
structure Model where
  predict : Row → Int
  classes : List Int
  predictProba : Option (Row → List ℚ)

/-- The two risk verdicts. -/
inductive Verdict where
  | GOOD
  | BAD
deriving Repr, DecidableEq

/-- Verdict interpretation (src/app.py lines 155-158): GOOD when the
predicted label equals 1, BAD otherwise. -/
def verdict_of (pred : Int) : Verdict :=
  if pred == 1 then .GOOD else .BAD

/-- proba_good (src/app.py line 150): when the class id 1 occurs among the
classes of the scorer, the probability at its index, otherwise none.  When
the scorer honors its contract the vector is parallel to the class list, so
the index is in range and the default of getD is unreachable. -/
def proba_good (classes : List Int) (proba : List ℚ) : Option ℚ :=
  if classes.contains 1 then
    some (proba.getD (classes.findIdx (· == 1)) 0)
  else none

/-- The pair (proba_good, proba_bad) of src/app.py lines 144-152: both stay
none when the scorer lacks the probability capability or the class id 1 is
absent; otherwise proba_bad = 1 - proba_good. -/
def probaPair (m : Model) (w : Row) : Option ℚ × Option ℚ :=
  match m.predictProba with
  | none => (none, none)
  | some f =>
    match proba_good m.classes (f w) with
    | none => (none, none)
    | some pg => (some pg, some (1 - pg))

/-- Clamped progress value driven into st.progress (src/app.py line 165). -/
def progressValue (p : ℚ) : ℚ :=
  min (max p 0) 1

/-- What the result card renders (src/app.py lines 155-168). -/
structure RenderResult where
  verdict : Verdict
  creditAmountShown : Int
  durationShown : Int
  probaGoodShown : Option ℚ
  progressShown : Option ℚ
  encodedRowShown : Row

/-- The whole submitted-branch computation (src/app.py lines 129-168):
assemble the row, score it, interpret, and render.  The probability metric
and the progress bar appear exactly when proba_bad is not none. -/
def handle_submit (m : Model) (encoders : List (String × LabelEncoder))
    (r : ApplicantRecord) : Except AppError RenderResult :=
  match input_df encoders r with
  | .error e => .error e
  | .ok w =>
    let pred := m.predict w
    let pgpb := probaPair m w
    .ok { verdict := verdict_of pred
        , creditAmountShown := r.creditAmount
        , durationShown := r.duration
        , probaGoodShown := if pgpb.2.isSome then pgpb.1 else none
        , progressShown := if pgpb.2.isSome then pgpb.1.map progressValue else none
        , encodedRowShown := w }

/-- Modelled from the spec: the st.cache_resource decorator on load_assets,
absent from the repository (it is framework code), described by the spec as
a process-wide cache keyed by no arguments.  One call: return the cached
object when present, otherwise run the load and store its result; the Bool
records whether this call performed a load. -/
def cachedCall {α : Type} (load : Unit → α) (s : Option α) :
    α × Option α × Bool :=
  match s with
  | some a => (a, some a, false)
  | none =>
    let a := load ()
    (a, some a, true)

/-- A sequence of n renders of the same process, each going through the
cache: the list of (returned object, whether this render loaded). -/
def renderTrace {α : Type} (load : Unit → α) : Nat → Option α → List (α × Bool)
  | 0, _ => []
  | n + 1, s =>
    let r := cachedCall load s
    (r.1, r.2.2) :: renderTrace load n r.2.1

/-- Number of renders of a trace that performed a load. -/
def countLoads {α : Type} (t : List (α × Bool)) : Nat :=
  (t.filter (fun p => p.2)).length

/-! Concrete demonstration assets, used to instantiate the theorems below
on closed inputs.  The vocabularies are the select-box options of the form,
in the sorted order a fitted label encoder keeps. -/

/-- A concrete encoder bank: one fitted encoder per categorical column. -/
def demoBank : String → LabelEncoder := fun col =>
  if col = "Sex" then ⟨["female", "male"]⟩
  else if col = "Housing" then ⟨["free", "own", "rent"]⟩
  else if col = "Saving accounts" then ⟨["little", "moderate", "quite rich", "rich"]⟩
  else ⟨["little", "moderate", "rich"]⟩

/-- The encoder dictionary loaded from the concrete bank. -/
def demoEncoders : List (String × LabelEncoder) :=
  load_encoders demoBank

/-- The first end-to-end example record of the spec. -/
def demoRecord : ApplicantRecord :=
  ⟨30, "male", 1, "own", "little", "little", 1000, 12⟩

/-- The second end-to-end example record of the spec: same categorical
fields, different numeric fields. -/
def demoRecord2 : ApplicantRecord :=
  ⟨30, "male", 1, "own", "little", "little", 50000, 60⟩

/-- A record holding a categorical value no encoder was fitted on. -/
def badRecord : ApplicantRecord :=
  ⟨30, "diverse", 1, "own", "little", "little", 1000, 12⟩

/-- Feature row of the first example record under the concrete bank. -/
def demoRow : Row :=
  [("Age", 30), ("Sex", 1), ("Job", 1), ("Housing", 1),
   ("Saving accounts", 0), ("Checking account", 0),
   ("Credit amount", 1000), ("Duration", 12)]

/-- Feature row of the second example record under the concrete bank. -/
def demoRow2 : Row :=
  [("Age", 30), ("Sex", 1), ("Job", 1), ("Housing", 1),
   ("Saving accounts", 0), ("Checking account", 0),
   ("Credit amount", 50000), ("Duration", 60)]

/-- A concrete scorer without the probability capability. -/
def demoModelPlain : Model :=
  { predict := fun _ => 1, classes := [0, 1], predictProba := none }

/-- A concrete scorer with the probability capability, classes 0 and 1. -/
def demoModelProba : Model :=
  { predict := fun _ => 1, classes := [0, 1],
    predictProba := some (fun _ => [0, 1]) }

/-- A concrete scorer whose classes do not include the GOOD id 1. -/
def demoModelOther : Model :=
  { predict := fun _ => 0, classes := [0, 2],
    predictProba := some (fun _ => [0, 1]) }

/-- Rendered result of a scorer on the first example, for closed witnesses. -/
def demoResOf (m : Model) : RenderResult :=
  match handle_submit m demoEncoders demoRecord with
  | .ok res => res
  | .error _ =>
    { verdict := .BAD, creditAmountShown := 0, durationShown := 0,
      probaGoodShown := none, progressShown := none, encodedRowShown := [] }

/-! Helper lemmas about feature assembly and the probability pair. -/

/-- Explicit value of input_df when all four encodings succeed. -/
theorem input_df_eq (bank : String → LabelEncoder) (r : ApplicantRecord)
    (cs ch cv ck : Nat)
    (hs : (bank "Sex").transform r.sex = some cs)
    (hh : (bank "Housing").transform r.housing = some ch)
    (hv : (bank "Saving accounts").transform r.savingAccounts = some cv)
    (hk : (bank "Checking account").transform r.checkingAccount = some ck) :
    input_df (load_encoders bank) r =
      .ok [("Age", r.age), ("Sex", (cs : Int)), ("Job", r.job),
           ("Housing", (ch : Int)), ("Saving accounts", (cv : Int)),
           ("Checking account", (ck : Int)),
           ("Credit amount", r.creditAmount), ("Duration", r.duration)] := by
  have ds : dictGet (load_encoders bank) "Sex" = .ok (bank "Sex") := rfl
  have dh : dictGet (load_encoders bank) "Housing" = .ok (bank "Housing") := rfl
  have dv : dictGet (load_encoders bank) "Saving accounts" =
      .ok (bank "Saving accounts") := rfl
  have dk : dictGet (load_encoders bank) "Checking account" =
      .ok (bank "Checking account") := rfl
  simp only [input_df, encodeField, ds, dh, dv, dk, hs, hh, hv, hk]

/-- Inversion of a successful feature assembly: all four encodings
succeeded and the row is the explicit eight-column list. -/
theorem input_df_ok_inv (encoders : List (String × LabelEncoder))
    (r : ApplicantRecord) (w : Row) (h : input_df encoders r = .ok w) :
    ∃ cs ch cv ck,
      encodeField encoders "Sex" r.sex = .ok cs ∧
      encodeField encoders "Housing" r.housing = .ok ch ∧
      encodeField encoders "Saving accounts" r.savingAccounts = .ok cv ∧
      encodeField encoders "Checking account" r.checkingAccount = .ok ck ∧
      w = [("Age", r.age), ("Sex", (cs : Int)), ("Job", r.job),
           ("Housing", (ch : Int)), ("Saving accounts", (cv : Int)),
           ("Checking account", (ck : Int)),
           ("Credit amount", r.creditAmount), ("Duration", r.duration)] := by
  unfold input_df at h
  cases hs : encodeField encoders "Sex" r.sex with
  | error e => rw [hs] at h; exact absurd h (by simp)
  | ok cs =>
  rw [hs] at h
  cases hh : encodeField encoders "Housing" r.housing with
  | error e => rw [hh] at h; exact absurd h (by simp)
  | ok ch =>
  rw [hh] at h
  cases hv : encodeField encoders "Saving accounts" r.savingAccounts with
  | error e => rw [hv] at h; exact absurd h (by simp)
  | ok cv =>
  rw [hv] at h
  cases hk : encodeField encoders "Checking account" r.checkingAccount with
  | error e => rw [hk] at h; exact absurd h (by simp)
  | ok ck =>
  rw [hk] at h
  simp only [Except.ok.injEq] at h
  exact ⟨cs, ch, cv, ck, rfl, rfl, rfl, rfl, h.symm⟩

/-- The probability pair is either (none, none) or complementary. -/
theorem probaPair_cases (m : Model) (w : Row) :
    probaPair m w = (none, none) ∨
    ∃ pg, probaPair m w = (some pg, some (1 - pg)) := by
  unfold probaPair
  cases m.predictProba with
  | none => exact Or.inl rfl
  | some f =>
    cases hg : proba_good m.classes (f w) with
    | none => exact Or.inl (by simp [hg])
    | some pg => exact Or.inr ⟨pg, by simp [hg]⟩

/-- C1: for every valid applicant record, whose four categorical values lie
in the vocabulary of their own encoder with the codes cs, ch, cv, ck,
feature assembly produces the single-row table with exactly the eight named
columns in the fixed order, each categorical field replaced by its code and
each numeric field passed through unchanged. -/
theorem feature_assembly_fixed_row (bank : String → LabelEncoder)
    (r : ApplicantRecord) (cs ch cv ck : Nat)
    (hs : (bank "Sex").transform r.sex = some cs)
    (hh : (bank "Housing").transform r.housing = some ch)
    (hv : (bank "Saving accounts").transform r.savingAccounts = some cv)
    (hk : (bank "Checking account").transform r.checkingAccount = some ck) :
    ∃ w, input_df (load_encoders bank) r = .ok w ∧
      w = [("Age", r.age), ("Sex", (cs : Int)), ("Job", r.job),
           ("Housing", (ch : Int)), ("Saving accounts", (cv : Int)),
           ("Checking account", (ck : Int)),
           ("Credit amount", r.creditAmount), ("Duration", r.duration)] ∧
      w.map Prod.fst = ["Age", "Sex", "Job", "Housing", "Saving accounts",
                        "Checking account", "Credit amount", "Duration"] ∧
      w.length = 8 := by
  exact ⟨_, input_df_eq bank r cs ch cv ck hs hh hv hk, rfl, rfl, rfl⟩

/-- C1 witness: the end-to-end example record of the spec under the
concrete bank. -/
theorem feature_assembly_fixed_row_witness :
    ∃ w, input_df (load_encoders demoBank) demoRecord = .ok w ∧
      w = [("Age", demoRecord.age), ("Sex", (1 : Int)),
           ("Job", demoRecord.job), ("Housing", (1 : Int)),
           ("Saving accounts", (0 : Int)), ("Checking account", (0 : Int)),
           ("Credit amount", demoRecord.creditAmount),
           ("Duration", demoRecord.duration)] ∧
      w.map Prod.fst = ["Age", "Sex", "Job", "Housing", "Saving accounts",
                        "Checking account", "Credit amount", "Duration"] ∧
      w.length = 8 :=
  feature_assembly_fixed_row demoBank demoRecord 1 1 0 0 rfl rfl rfl rfl

/-- C2: for every scorer and every assembled row, the verdict rendered from
the predicted label is GOOD exactly when that label equals the designated
GOOD class id 1, and BAD exactly otherwise. -/
theorem verdict_good_iff_label_one (m : Model) (w : Row) :
    (verdict_of (m.predict w) = Verdict.GOOD ↔ m.predict w = 1) ∧
    (verdict_of (m.predict w) = Verdict.BAD ↔ m.predict w ≠ 1) := by
  unfold verdict_of
  by_cases h : m.predict w = 1 <;> simp [h]

/-- C6 counterexample: the encoder bank of load_assets maps four
categorical columns, not six: the dictionary comprehension runs over a
four-element column list, and the dictionary it builds has four entries. -/
theorem six_encoders_counterexample :
    categoricalColumns.length = 4 ∧ categoricalColumns.length ≠ 6 ∧
    (load_encoders (fun _ => ⟨[]⟩)).length = 4 ∧
    (load_encoders (fun _ => ⟨[]⟩)).length ≠ 6 := by
  refine ⟨rfl, by decide, rfl, by decide⟩

/-- C6 amended: the encode-and-infer core maps FOUR categorical fields
through four independent label encoders, one per field name, and each
encoded cell of the assembled row is the code of its own encoder. -/
theorem four_fields_four_encoders (bank : String → LabelEncoder)
    (r : ApplicantRecord) (cs ch cv ck : Nat)
    (hs : (bank "Sex").transform r.sex = some cs)
    (hh : (bank "Housing").transform r.housing = some ch)
    (hv : (bank "Saving accounts").transform r.savingAccounts = some cv)
    (hk : (bank "Checking account").transform r.checkingAccount = some ck) :
    categoricalColumns.length = 4 ∧
    (load_encoders bank).map Prod.fst = categoricalColumns ∧
    ∃ w, input_df (load_encoders bank) r = .ok w ∧
      w.cell "Sex" = some (cs : Int) ∧
      w.cell "Housing" = some (ch : Int) ∧
      w.cell "Saving accounts" = some (cv : Int) ∧
      w.cell "Checking account" = some (ck : Int) := by
  refine ⟨rfl, rfl, ?_⟩
  exact ⟨_, input_df_eq bank r cs ch cv ck hs hh hv hk, rfl, rfl, rfl, rfl⟩

/-- C6 witness: the amended statement at the concrete bank and record. -/
theorem four_fields_four_encoders_witness :
    categoricalColumns.length = 4 ∧
    (load_encoders demoBank).map Prod.fst = categoricalColumns ∧
    ∃ w, input_df (load_encoders demoBank) demoRecord = .ok w ∧
      w.cell "Sex" = some (1 : Int) ∧
      w.cell "Housing" = some (1 : Int) ∧
      w.cell "Saving accounts" = some (0 : Int) ∧
      w.cell "Checking account" = some (0 : Int) :=
  four_fields_four_encoders demoBank demoRecord 1 1 0 0 rfl rfl rfl rfl

/-- C7: encoding is a pure function of the pair (field name, label): for
any two submitted records handled with the same encoder dictionary, equal
raw values of a categorical field yield equal encoded cells, whatever the
other fields hold.  In particular encoding the same label twice yields the
same integer code. -/
theorem encoding_pure (encoders : List (String × LabelEncoder))
    (r1 r2 : ApplicantRecord) (w1 w2 : Row)
    (h1 : input_df encoders r1 = .ok w1)
    (h2 : input_df encoders r2 = .ok w2) :
    (r1.sex = r2.sex → w1.cell "Sex" = w2.cell "Sex") ∧
    (r1.housing = r2.housing → w1.cell "Housing" = w2.cell "Housing") ∧
    (r1.savingAccounts = r2.savingAccounts →
      w1.cell "Saving accounts" = w2.cell "Saving accounts") ∧
    (r1.checkingAccount = r2.checkingAccount →
      w1.cell "Checking account" = w2.cell "Checking account") := by
  obtain ⟨cs1, ch1, cv1, ck1, hs1, hh1, hv1, hk1, hw1⟩ :=
    input_df_ok_inv encoders r1 w1 h1
  obtain ⟨cs2, ch2, cv2, ck2, hs2, hh2, hv2, hk2, hw2⟩ :=
    input_df_ok_inv encoders r2 w2 h2
  subst hw1 hw2
  refine ⟨fun he => ?_, fun he => ?_, fun he => ?_, fun he => ?_⟩
  · rw [he] at hs1
    rw [hs1] at hs2
    cases hs2
    rfl
  · rw [he] at hh1
    rw [hh1] at hh2
    cases hh2
    rfl
  · rw [he] at hv1
    rw [hv1] at hv2
    cases hv2
    rfl
  · rw [he] at hk1
    rw [hk1] at hk2
    cases hk2
    rfl

/-- C7 witness: the two end-to-end example records of the spec share all
four categorical values, so their rows share all four encoded cells. -/
theorem encoding_pure_witness :
    (demoRecord.sex = demoRecord2.sex →
      demoRow.cell "Sex" = demoRow2.cell "Sex") ∧
    (demoRecord.housing = demoRecord2.housing →
      demoRow.cell "Housing" = demoRow2.cell "Housing") ∧
    (demoRecord.savingAccounts = demoRecord2.savingAccounts →
      demoRow.cell "Saving accounts" = demoRow2.cell "Saving accounts") ∧
    (demoRecord.checkingAccount = demoRecord2.checkingAccount →
      demoRow.cell "Checking account" = demoRow2.cell "Checking account") :=
  encoding_pure demoEncoders demoRecord demoRecord2 demoRow demoRow2 rfl rfl

/-- C3: when any submitted categorical value is outside the vocabulary of
its encoder, feature assembly fails with an UnknownCategory error, no row
is produced, and the whole submitted branch fails with that same error for
every scorer whatsoever: the scorer is never consulted and no verdict is
rendered. -/
theorem unknown_category_aborts (bank : String → LabelEncoder)
    (r : ApplicantRecord)
    (h : (bank "Sex").transform r.sex = none ∨
         (bank "Housing").transform r.housing = none ∨
         (bank "Saving accounts").transform r.savingAccounts = none ∨
         (bank "Checking account").transform r.checkingAccount = none) :
    ∃ field label,
      input_df (load_encoders bank) r =
        .error (.UnknownCategory field label) ∧
      ∀ m : Model,
        handle_submit m (load_encoders bank) r =
          .error (.UnknownCategory field label) := by
  have ds : dictGet (load_encoders bank) "Sex" = .ok (bank "Sex") := rfl
  have dh : dictGet (load_encoders bank) "Housing" = .ok (bank "Housing") := rfl
  have dv : dictGet (load_encoders bank) "Saving accounts" =
      .ok (bank "Saving accounts") := rfl
  have dk : dictGet (load_encoders bank) "Checking account" =
      .ok (bank "Checking account") := rfl
  cases hs : (bank "Sex").transform r.sex with
  | none =>
    refine ⟨"Sex", r.sex, ?_, ?_⟩
    · simp only [input_df, encodeField, ds, hs]
    · intro m
      simp only [handle_submit, input_df, encodeField, ds, hs]
  | some cs =>
  cases hh : (bank "Housing").transform r.housing with
  | none =>
    refine ⟨"Housing", r.housing, ?_, ?_⟩
    · simp only [input_df, encodeField, ds, dh, hs, hh]
    · intro m
      simp only [handle_submit, input_df, encodeField, ds, dh, hs, hh]
  | some ch =>
  cases hv : (bank "Saving accounts").transform r.savingAccounts with
  | none =>
    refine ⟨"Saving accounts", r.savingAccounts, ?_, ?_⟩
    · simp only [input_df, encodeField, ds, dh, dv, hs, hh, hv]
    · intro m
      simp only [handle_submit, input_df, encodeField, ds, dh, dv, hs, hh, hv]
  | some cv =>
  cases hk : (bank "Checking account").transform r.checkingAccount with
  | none =>
    refine ⟨"Checking account", r.checkingAccount, ?_, ?_⟩
    · simp only [input_df, encodeField, ds, dh, dv, dk, hs, hh, hv, hk]
    · intro m
      simp only [handle_submit, input_df, encodeField, ds, dh, dv, dk,
        hs, hh, hv, hk]
  | some ck =>
    rcases h with h | h | h | h <;> simp_all

/-- C3 witness: the record with the unfitted Sex value aborts with
UnknownCategory under the concrete bank. -/
theorem unknown_category_aborts_witness :
    ∃ field label,
      input_df (load_encoders demoBank) badRecord =
        .error (.UnknownCategory field label) ∧
      ∀ m : Model,
        handle_submit m (load_encoders demoBank) badRecord =
          .error (.UnknownCategory field label) :=
  unknown_category_aborts demoBank badRecord (Or.inl rfl)

/-- C4: when the scorer has the probability capability, honors its contract
(the vector is parallel to the class list, entrywise nonnegative, and sums
to one) and the GOOD class id 1 occurs among its classes, a probability of
GOOD is reported, the reported probability of BAD is exactly 1 minus it,
and it lies in the unit interval. -/
theorem proba_complementary_and_bounded (m : Model) (f : Row → List ℚ)
    (w : Row)
    (hf : m.predictProba = some f)
    (hc : (1 : Int) ∈ m.classes)
    (hlen : (f w).length = m.classes.length)
    (hpos : ∀ x ∈ f w, 0 ≤ x)
    (hsum : (f w).sum = 1) :
    ∃ pg, probaPair m w = (some pg, some (1 - pg)) ∧ 0 ≤ pg ∧ pg ≤ 1 := by
  have hcontains : m.classes.contains 1 = true := List.elem_iff.mpr hc
  have hidx : m.classes.findIdx (· == 1) < m.classes.length :=
    List.findIdx_lt_length_of_exists ⟨1, hc, by simp⟩
  have hidx2 : m.classes.findIdx (· == 1) < (f w).length := by
    rw [hlen]; exact hidx
  set pg := (f w).getD (m.classes.findIdx (· == 1)) 0 with hpg
  have hmem : pg ∈ f w := by
    rw [hpg, List.getD_eq_getElem?_getD, List.getElem?_eq_getElem hidx2]
    exact List.getElem_mem hidx2
  refine ⟨pg, ?_, hpos pg hmem, ?_⟩
  · simp only [probaPair, hf, proba_good, hcontains, if_true]
  · calc pg ≤ (f w).sum := List.single_le_sum hpos pg hmem
    _ = 1 := hsum

/-- C4 witness: the concrete probability-capable scorer on the example
row reports complementary probabilities in the unit interval. -/
theorem proba_complementary_and_bounded_witness :
    ∃ pg, probaPair demoModelProba demoRow = (some pg, some (1 - pg)) ∧
      0 ≤ pg ∧ pg ≤ 1 :=
  proba_complementary_and_bounded demoModelProba (fun _ => [0, 1]) demoRow
    rfl (by decide) rfl (by simp) (by simp)

/-- C5: when the scorer has the probability capability but the GOOD class
id 1 is absent from its classes, no probability of GOOD and no probability
of BAD is reported, the probability metric and the progress bar are not
rendered, and the interpretation still completes with a verdict (no
exception escapes: handle_submit returns a rendered result whenever
assembly succeeded). -/
theorem good_absent_degrades_silently (m : Model) (f : Row → List ℚ)
    (hf : m.predictProba = some f)
    (hna : (1 : Int) ∉ m.classes) :
    (∀ w, probaPair m w = (none, none)) ∧
    ∀ encoders r w, input_df encoders r = .ok w →
      ∃ res, handle_submit m encoders r = .ok res ∧
        res.verdict = verdict_of (m.predict w) ∧
        res.probaGoodShown = none ∧ res.progressShown = none := by
  have hcontains : m.classes.contains 1 = false := by
    rw [← Bool.not_eq_true]
    intro hcon
    exact hna (List.elem_iff.mp hcon)
  have hpair : ∀ w, probaPair m w = (none, none) := by
    intro w
    simp [probaPair, hf, proba_good, hcontains, hna]
  refine ⟨hpair, fun encoders r w hw => ?_⟩
  have hres : handle_submit m encoders r = .ok
      { verdict := verdict_of (m.predict w)
      , creditAmountShown := r.creditAmount
      , durationShown := r.duration
      , probaGoodShown := none
      , progressShown := none
      , encodedRowShown := w } := by
    simp [handle_submit, hw, hpair w]
  exact ⟨_, hres, rfl, rfl, rfl⟩

/-- C5 witness: the scorer fitted on classes 0 and 2 reports no
probability, yet still renders a verdict on the example record. -/
theorem good_absent_degrades_silently_witness :
    (∀ w, probaPair demoModelOther w = (none, none)) ∧
    ∀ encoders r w, input_df encoders r = .ok w →
      ∃ res, handle_submit demoModelOther encoders r = .ok res ∧
        res.verdict = verdict_of (demoModelOther.predict w) ∧
        res.probaGoodShown = none ∧ res.progressShown = none :=
  good_absent_degrades_silently demoModelOther (fun _ => [0, 1]) rfl
    (by decide)

/-- C8: whenever the rendered result drives a value into the progress
indicator, that value lies in the unit interval, and it is exactly the
reported probability of GOOD clamped to the unit interval, whatever
probability the scorer returned. -/
theorem progress_in_unit_interval (m : Model)
    (encoders : List (String × LabelEncoder)) (r : ApplicantRecord)
    (res : RenderResult) (v : ℚ)
    (hok : handle_submit m encoders r = .ok res)
    (hpv : res.progressShown = some v) :
    0 ≤ v ∧ v ≤ 1 ∧
    ∃ pg, res.probaGoodShown = some pg ∧ v = progressValue pg := by
  unfold handle_submit at hok
  cases hw : input_df encoders r with
  | error e => rw [hw] at hok; exact absurd hok (by simp)
  | ok w =>
  rw [hw] at hok
  simp only [Except.ok.injEq] at hok
  subst hok
  rcases probaPair_cases m w with hp | ⟨pg, hp⟩
  · simp [hp] at hpv
  · simp only [hp] at hpv
    simp only [Option.isSome_some, if_true, Option.map_some] at hpv
    have hv : v = progressValue pg := by
      cases hpv
      rfl
    refine ⟨?_, ?_, pg, by simp [hp], hv⟩
    · rw [hv]
      exact le_min (le_max_right _ _) zero_le_one
    · rw [hv]
      exact min_le_right _ _

/-- C8 witness: the probability-capable scorer on the example record drives
the clamp of probability one into the progress indicator. -/
theorem progress_in_unit_interval_witness :
    0 ≤ progressValue 1 ∧ progressValue 1 ≤ 1 ∧
    ∃ pg, (demoResOf demoModelProba).probaGoodShown = some pg ∧
      progressValue 1 = progressValue pg :=
  progress_in_unit_interval demoModelProba demoEncoders demoRecord
    (demoResOf demoModelProba) (progressValue 1) rfl rfl

/-- After the first load the cache stays full: every later render returns
the cached object without loading. -/
theorem renderTrace_after_load {α : Type} (load : Unit → α) (a : α) :
    ∀ n, renderTrace load n (some a) = List.replicate n (a, false) := by
  intro n
  induction n with
  | zero => rfl
  | succ k ih => simp [renderTrace, cachedCall, ih, List.replicate_succ]

/-- Renders that did not load contribute nothing to the load count. -/
theorem filter_replicate_false {α : Type} (a : α) (k : Nat) :
    (List.replicate k (a, false)).filter (fun p => p.2) = [] := by
  induction k with
  | zero => rfl
  | succ k ih => simp [List.replicate_succ, List.filter_cons, ih]

/-- C9: across any positive number of renders of one process, the memoized
asset loader runs exactly once, and every render receives the very object
that single load produced. -/
theorem assets_loaded_once {α : Type} (load : Unit → α) (n : Nat)
    (hn : 0 < n) :
    countLoads (renderTrace load n none) = 1 ∧
    ∀ p ∈ renderTrace load n none, p.1 = load () := by
  obtain ⟨k, rfl⟩ : ∃ k, n = k + 1 := ⟨n - 1, by omega⟩
  have ht : renderTrace load (k + 1) none =
      (load (), true) :: List.replicate k (load (), false) := by
    simp [renderTrace, cachedCall, renderTrace_after_load]
  rw [ht]
  constructor
  · simp [countLoads, List.filter_cons, filter_replicate_false]
  · intro p hp
    rcases List.mem_cons.mp hp with h | h
    · rw [h]
    · rw [(List.mem_replicate.mp h).2]

/-- C9 witness: three renders from a cold cache perform one load and all
see the loaded object. -/
theorem assets_loaded_once_witness :
    countLoads (renderTrace (fun _ => (42 : Nat)) 3 none) = 1 ∧
    ∀ p ∈ renderTrace (fun _ => (42 : Nat)) 3 none,
      p.1 = (fun _ => (42 : Nat)) () :=
  assets_loaded_once (fun _ => (42 : Nat)) 3 (by decide)

/-- C10: the verdict depends only on the label predict returns: two runs on
the same submission whose scorers predict the same label on the assembled
row render the same verdict, whether or not either scorer exposes the
probability capability and whatever probability vector it returns. -/
theorem verdict_depends_only_on_label (m1 m2 : Model)
    (encoders : List (String × LabelEncoder)) (r : ApplicantRecord)
    (res1 res2 : RenderResult)
    (h1 : handle_submit m1 encoders r = .ok res1)
    (h2 : handle_submit m2 encoders r = .ok res2)
    (hp : m1.predict res1.encodedRowShown = m2.predict res2.encodedRowShown) :
    res1.verdict = res2.verdict := by
  unfold handle_submit at h1 h2
  cases hw : input_df encoders r with
  | error e => rw [hw] at h1; exact absurd h1 (by simp)
  | ok w =>
  rw [hw] at h1
  rw [hw] at h2
  simp only [Except.ok.injEq] at h1 h2
  subst h1
  subst h2
  have hp2 : m1.predict w = m2.predict w := hp
  show verdict_of (m1.predict w) = verdict_of (m2.predict w)
  rw [hp2]

/-- C10 witness: a probability-free scorer and a probability-capable scorer
predicting the same label on the example record render the same verdict. -/
theorem verdict_depends_only_on_label_witness :
    (demoResOf demoModelPlain).verdict = (demoResOf demoModelProba).verdict :=
  verdict_depends_only_on_label demoModelPlain demoModelProba demoEncoders
    demoRecord (demoResOf demoModelPlain) (demoResOf demoModelProba)
    rfl rfl rfl

end CreditRisk
